import Mathlib

/-!
Shallow embedding of the Suppress HTTP routing library (TypeScript).

The canonical source is the `SuppressController` / `Suppress` pair:
`SuppressController` keeps a `ServerRoutesMap` (one exact-path map per HTTP
method GET/POST/PUT/DELETE) and dispatches a request by exact lookup after
stripping a base path from the url; `Suppress` owns a `Map` from base path to
sub-controller and a root route table, rejects unrecognized methods with 405,
and otherwise forwards to the sub-controller for the first path segment or to
its own root table.

Handlers are opaque values of a type parameter `H`; the observable result of
one dispatch is an `Outcome`: either a handler was invoked, or the router
itself wrote a response (status code plus JSON body).
-/

/-- An incoming request as the router sees it: `req.method` and `req.url`
(the url may be absent in Node's `IncomingMessage`, hence `Option`). -/
structure Request where
  method : String
  url : Option String
deriving Repr, DecidableEq

/-- Result of one dispatch: the router either invoked a registered handler or
produced a response itself (status code and body string). -/
inductive Outcome (H : Type) where
  | invoked (h : H)
  | response (status : Nat) (body : String)
deriving Repr, DecidableEq

/-- `JSON.stringify(\x7b error: 'Route not found' \x7d)`. -/
def routeNotFoundBody : String := "\x7b\"error\":\"Route not found\"\x7d"

/-- `JSON.stringify(\x7b error: 'Method not allowed' \x7d)`. -/
def methodNotAllowedBody : String := "\x7b\"error\":\"Method not allowed\"\x7d"

/-- `chPre pat s` : `pat` is a leading prefix of `s` (on character lists). -/
def chPre : List Char → List Char → Bool
  | [], _ => true
  | _ :: _, [] => false
  | p :: ps, c :: cs => p == c && chPre ps cs

/-- `occursIn pat s` : `pat` occurs as a contiguous substring of `s`. -/
def occursIn (pat : List Char) : List Char → Bool
  | [] => chPre pat []
  | c :: cs => chPre pat (c :: cs) || occursIn pat cs

/-- Remove the first occurrence of `pat` from `s`, the semantics of
JavaScript `s.replace(pat, '')` with a string pattern: scan left to right,
delete the first match, leave `s` unchanged when `pat` does not occur
(an empty `pat` matches at index 0 and deletes nothing). -/
def removeFirstSub (pat : List Char) : List Char → List Char
  | [] => []
  | c :: cs =>
    if chPre pat (c :: cs) then (c :: cs).drop pat.length
    else c :: removeFirstSub pat cs

/-- JavaScript `s.replace(pat, '')` on Lean strings. -/
def jsReplaceFirst (s pat : String) : String :=
  String.mk (removeFirstSub pat.data s.data)

/-- `req.url?.replace(basePath, '') || '/'` followed by the
"ensure leading slash" normalization, on character lists. -/
def effectivePathChars (url : Option (List Char)) (bp : List Char) : List Char :=
  let p := match url with
    | none => ['/']
    | some u =>
      let r := removeFirstSub bp u
      if r = [] then ['/'] else r
  if chPre ['/'] p then p else '/' :: p

/-- The effective lookup path `SuppressController.handleRequest` computes from
`req.url` and the `basePath` argument (source lines 145-150). -/
def effectivePath (url : Option String) (basePath : String) : String :=
  String.mk (effectivePathChars (url.map String.data) basePath.data)

/-- `ServerRoutesMap`: one exact-path map per recognized HTTP method. -/
structure RoutesMap (H : Type) where
  GET : String → Option H
  POST : String → Option H
  PUT : String → Option H
  DELETE : String → Option H

/-- The empty `ServerRoutesMap` a fresh `SuppressController` starts with. -/
def emptyRoutes (H : Type) : RoutesMap H :=
  { GET := fun _ => none, POST := fun _ => none,
    PUT := fun _ => none, DELETE := fun _ => none }

/-- `this.routes[method]?.[path]`: route lookup keyed first by the method
string (only the four fixed keys exist; any other method finds nothing, the
optional chaining makes this total) and then by exact path. -/
def routesLookup {H : Type} (r : RoutesMap H) (method path : String) : Option H :=
  if method = "GET" then r.GET path
  else if method = "POST" then r.POST path
  else if method = "PUT" then r.PUT path
  else if method = "DELETE" then r.DELETE path
  else none

/-- `controller.get(path, handler)`: `this.routes.GET[path] = handler`. -/
def SuppressController.get {H : Type} (r : RoutesMap H) (path : String) (h : H) : RoutesMap H :=
  { r with GET := fun p => if p = path then some h else r.GET p }

/-- `controller.post(path, handler)`: `this.routes.POST[path] = handler`. -/
def SuppressController.post {H : Type} (r : RoutesMap H) (path : String) (h : H) : RoutesMap H :=
  { r with POST := fun p => if p = path then some h else r.POST p }

/-- `controller.put(path, handler)`: `this.routes.PUT[path] = handler`. -/
def SuppressController.put {H : Type} (r : RoutesMap H) (path : String) (h : H) : RoutesMap H :=
  { r with PUT := fun p => if p = path then some h else r.PUT p }

/-- `controller.delete(path, handler)`: `this.routes.DELETE[path] = handler`. -/
def SuppressController.delete {H : Type} (r : RoutesMap H) (path : String) (h : H) : RoutesMap H :=
  { r with DELETE := fun p => if p = path then some h else r.DELETE p }

/-- `SuppressController.handleRequest(req, res, basePath)` (source lines
139-160): compute the effective path, look the handler up under
`routes[method]?.[path]`, invoke it if found, otherwise respond 404 with
the `Route not found` JSON body. -/
def SuppressController.handleRequest {H : Type} (r : RoutesMap H) (req : Request)
    (basePath : String) : Outcome H :=
  match routesLookup r req.method (effectivePath req.url basePath) with
  | some h => Outcome.invoked h
  | none => Outcome.response 404 routeNotFoundBody

/-- `['GET', 'POST', 'PUT', 'DELETE'].includes(method)`. -/
def recognizedMethod (m : String) : Bool :=
  m = "GET" || m = "POST" || m = "PUT" || m = "DELETE"

/-- `req.url || '/'`: the raw url with undefined or empty falling back to `/`. -/
def urlOrSlash : Option String → String
  | none => "/"
  | some u => if u = "" then "/" else u

/-- JavaScript `path.split('/')` on character lists (the separator is the
single character `/`). -/
def splitAux : List Char → List Char → List (List Char)
  | [], acc => [acc.reverse]
  | c :: cs, acc =>
    if c = '/' then acc.reverse :: splitAux cs [] else splitAux cs (c :: acc)

/-- `path.split('/').filter(Boolean)`: the non-empty `/`-delimited segments. -/
def segmentsOf (path : String) : List (List Char) :=
  (splitAux path.data []).filter (fun s => s ≠ [])

/-- `segments.length > 0 ? '/' + segments[0] : '/'`. -/
def basePathOf (path : String) : String :=
  match segmentsOf path with
  | [] => "/"
  | seg :: _ => String.mk ('/' :: seg)

/-- The `Suppress` dispatcher state: its own root route table (inherited from
`SuppressController`) plus the `Map<string, SuppressController>` of
sub-controllers keyed by base path. -/
structure Suppress (H : Type) where
  routes : RoutesMap H
  controllers : String → Option (RoutesMap H)

/-- A fresh `Suppress` instance: empty root table, no sub-controllers. -/
def emptySuppress (H : Type) : Suppress H :=
  { routes := emptyRoutes H, controllers := fun _ => none }

/-- `app.addController(basePath, controller)`:
`this.controllers.set(basePath, controller)`, overwriting silently. -/
def Suppress.addController {H : Type} (app : Suppress H) (basePath : String)
    (ctrl : RoutesMap H) : Suppress H :=
  { app with controllers := fun bp => if bp = basePath then some ctrl else app.controllers bp }

/-- `Suppress.handleRootRequest(req, res)` (source lines 210-230): reject a
method outside the four recognized ones with 405 and the
`Method not allowed` JSON body; otherwise compute the base path from the
first non-empty path segment and forward to the sub-controller registered
there (stripping the base path), or to the own root table with base `/`. -/
def Suppress.handleRootRequest {H : Type} (app : Suppress H) (req : Request) : Outcome H :=
  if recognizedMethod req.method then
    let bp := basePathOf (urlOrSlash req.url)
    match app.controllers bp with
    | some ctrl => SuppressController.handleRequest ctrl req bp
    | none => SuppressController.handleRequest app.routes req "/"
  else Outcome.response 405 methodNotAllowedBody

/-- Running a handler that may raise: a handler is a function
`Request → Except E Unit`, and executing a dispatch outcome runs the invoked
handler with no surrounding try/catch (the source wraps `routeHandler(req, res)`
in nothing), while a router-written response raises nothing. -/
def execOutcome {E : Type} (o : Outcome (Request → Except E Unit)) (req : Request) :
    Except E Unit :=
  match o with
  | Outcome.invoked h => h req
  | Outcome.response _ _ => Except.ok ()

/-- Dispatch through a route table and then run the chosen handler. -/
def runHandleRequest {E : Type} (r : RoutesMap (Request → Except E Unit))
    (req : Request) (bp : String) : Except E Unit :=
  execOutcome (SuppressController.handleRequest r req bp) req

/-- Dispatch through the `Suppress` dispatcher and then run the chosen handler. -/
def runRootRequest {E : Type} (app : Suppress (Request → Except E Unit))
    (req : Request) : Except E Unit :=
  execOutcome (Suppress.handleRootRequest app req) req

/-- The effective-path computation as claim C4 words it: strip
`basePathToStrip` only when it is a leading prefix of the url, leave the url
unchanged otherwise, then apply the same empty-to-slash fallback and
leading-slash normalization. Written from the claim, for comparison with
`effectivePath`, which is written from the source. -/
def effectivePathLeadingOnly (url : Option String) (basePath : String) : String :=
  String.mk (
    let p := match url.map String.data with
      | none => ['/']
      | some u =>
        let r := if chPre basePath.data u then u.drop basePath.data.length else u
        if r = [] then ['/'] else r
    if chPre ['/'] p then p else '/' :: p)

/-! ### Helper lemmas about the path computations -/

theorem chPre_self : ∀ l : List Char, chPre l l = true
  | [] => rfl
  | c :: cs => by simp [chPre, chPre_self cs]

theorem chPre_append_self : ∀ (l b : List Char), chPre l (l ++ b) = true
  | [], _ => rfl
  | c :: cs, b => by simp [chPre, chPre_append_self cs b]

theorem removeFirstSub_nil_pat : ∀ s : List Char, removeFirstSub [] s = s
  | [] => rfl
  | _ :: _ => by simp [removeFirstSub, chPre]

theorem removeFirstSub_self (l : List Char) : removeFirstSub l l = [] := by
  cases l with
  | nil => rfl
  | cons c cs => simp [removeFirstSub, chPre_self, List.drop_length]

theorem removeFirstSub_not_occurs (pat : List Char) :
    ∀ s : List Char, occursIn pat s = false → removeFirstSub pat s = s
  | [], _ => rfl
  | c :: cs, h => by
    simp only [occursIn, Bool.or_eq_false_iff] at h
    simp [removeFirstSub, h.1, removeFirstSub_not_occurs pat cs h.2]

theorem removeFirstSub_first_occ (pat : List Char) :
    ∀ (a b : List Char),
      (∀ i, i < a.length → chPre pat ((a ++ (pat ++ b)).drop i) = false) →
      removeFirstSub pat (a ++ (pat ++ b)) = a ++ b := by
  intro a
  induction a with
  | nil =>
    intro b _
    cases pat with
    | nil => simpa using removeFirstSub_nil_pat b
    | cons p ps =>
      have hc : chPre (p :: ps) (p :: (ps ++ b)) = true := chPre_append_self (p :: ps) b
      have hd : List.drop (p :: ps).length (p :: (ps ++ b)) = b := List.drop_left (p :: ps) b
      simp only [List.nil_append, List.cons_append, removeFirstSub, List.append_eq]
      simp [hc, hd]
  | cons x xs ih =>
    intro b h
    have h0 : chPre pat (x :: (xs ++ (pat ++ b))) = false := by
      have := h 0 (Nat.succ_pos _)
      simpa using this
    have ih2 : removeFirstSub pat (xs ++ (pat ++ b)) = xs ++ b := by
      apply ih
      intro i hi
      have := h (i + 1) (Nat.succ_lt_succ hi)
      simpa [List.drop_succ_cons] using this
    simp only [List.cons_append, removeFirstSub, List.append_eq, h0]
    simp [ih2]

/-! ### Claim theorems -/

/-- C1: for every route table state and every registered triple
(method, path, handler) — the handler being the one the table currently
holds for the pair, i.e. the most recently registered one — dispatching a
request whose method and full effective path exactly equal that registered
method and path invokes exactly that handler and no other, and does not
produce the 404 response. -/
theorem C1_registered_handler_invoked {H : Type} (r : RoutesMap H) (m p : String) (h : H)
    (hreg : routesLookup r m p = some h) (req : Request) (basePath : String)
    (hm : req.method = m) (hp : effectivePath req.url basePath = p) :
    SuppressController.handleRequest r req basePath = Outcome.invoked h := by
  unfold SuppressController.handleRequest
  rw [hm, hp, hreg]

theorem C1_witness :
    SuppressController.handleRequest (SuppressController.get (emptyRoutes Nat) "/users" 7)
      { method := "GET", url := some "/users" } "/" = Outcome.invoked 7 :=
  C1_registered_handler_invoked (SuppressController.get (emptyRoutes Nat) "/users" 7)
    "GET" "/users" 7 rfl { method := "GET", url := some "/users" } "/" rfl rfl

/-- C2: a request whose method is outside GET/POST/PUT/DELETE is answered by
the Dispatcher with status 405 and the `Method not allowed` JSON body,
whatever the route-table and sub-table state; and the check lives only at the
Dispatcher level: a Route Table's own dispatch never produces a 405. -/
theorem C2_unrecognized_method_405 {H : Type} (app : Suppress H) (req : Request)
    (hm : recognizedMethod req.method = false) :
    app.handleRootRequest req = Outcome.response 405 methodNotAllowedBody ∧
    ∀ (r : RoutesMap H) (bp body : String),
      SuppressController.handleRequest r req bp ≠ Outcome.response 405 body := by
  constructor
  · simp [Suppress.handleRootRequest, hm]
  · intro r bp body hcontra
    unfold SuppressController.handleRequest at hcontra
    cases hl : routesLookup r req.method (effectivePath req.url bp) <;>
      simp [hl] at hcontra

theorem C2_witness :
    (emptySuppress Nat).handleRootRequest { method := "PATCH", url := some "/x" } =
      Outcome.response 405 methodNotAllowedBody ∧
    SuppressController.handleRequest (emptyRoutes Nat)
      { method := "PATCH", url := some "/x" } "/" ≠
      Outcome.response 405 methodNotAllowedBody :=
  ⟨(C2_unrecognized_method_405 (emptySuppress Nat)
      { method := "PATCH", url := some "/x" } (by decide)).1,
   (C2_unrecognized_method_405 (emptySuppress Nat)
      { method := "PATCH", url := some "/x" } (by decide)).2
     (emptyRoutes Nat) "/" methodNotAllowedBody⟩

/-- C3: a request with a recognized method whose effective path has no
handler under that method gets the 404 response with the `Route not found`
JSON body from the Route Table's dispatch, and no handler is invoked. -/
theorem C3_unmatched_path_404 {H : Type} (r : RoutesMap H) (req : Request) (bp : String)
    (_hm : recognizedMethod req.method = true)
    (hl : routesLookup r req.method (effectivePath req.url bp) = none) :
    SuppressController.handleRequest r req bp = Outcome.response 404 routeNotFoundBody := by
  unfold SuppressController.handleRequest
  rw [hl]

theorem C3_witness :
    SuppressController.handleRequest (emptyRoutes Nat)
      { method := "GET", url := some "/nope" } "/" =
      Outcome.response 404 routeNotFoundBody :=
  C3_unmatched_path_404 (emptyRoutes Nat) { method := "GET", url := some "/nope" } "/"
    (by decide) rfl

/-- C4, counterexample: the claim says the Route Table strips
`basePathToStrip` only as a leading prefix, leaving the path unchanged
otherwise; but at url `/a/user` with `basePathToStrip = /user` (which is not
a leading prefix) the code's effective path is `/a`, not the unchanged
`/a/user` the claim predicts, because `String.replace` deletes the first
occurrence anywhere in the url. -/
theorem C4_counterexample :
    effectivePath (some "/a/user") "/user" = "/a" ∧
    effectivePathLeadingOnly (some "/a/user") "/user" = "/a/user" ∧
    "/a" ≠ "/a/user" := by
  refine ⟨by decide, by decide, by decide⟩

/-- C4, amended: the Route Table's dispatch computes the effective lookup
path by deleting the first occurrence of `basePathToStrip` anywhere in the
request's full path (leaving the path unchanged when `basePathToStrip` does
not occur in it as a substring), and prepends `/` if the result does not
start with `/`; in particular a path `/profile` registered under sub-table
base `/user` matches an incoming request to `/user/profile`, and does not
match a request to `/profile` at the root. -/
theorem C4_first_occurrence_strip {H : Type} :
    (∀ u bp : String, occursIn bp.data u.data = false → jsReplaceFirst u bp = u) ∧
    (∀ pat a b : List Char,
        (∀ i, i < a.length → chPre pat ((a ++ (pat ++ b)).drop i) = false) →
        removeFirstSub pat (a ++ (pat ++ b)) = a ++ b) ∧
    (∀ (app : Suppress H) (ctrl : RoutesMap H) (h : H),
        app.controllers "/user" = some ctrl →
        routesLookup ctrl "GET" "/profile" = some h →
        app.handleRootRequest { method := "GET", url := some "/user/profile" } =
          Outcome.invoked h) ∧
    (∀ app : Suppress H,
        app.controllers "/profile" = none →
        routesLookup app.routes "GET" "/profile" = none →
        app.handleRootRequest { method := "GET", url := some "/profile" } =
          Outcome.response 404 routeNotFoundBody) := by
  refine ⟨?_, ?_, ?_, ?_⟩
  · intro u bp hno
    unfold jsReplaceFirst
    rw [removeFirstSub_not_occurs bp.data u.data hno]
  · intro pat a b hmin
    exact removeFirstSub_first_occ pat a b hmin
  · intro app ctrl h hc hl
    have hstep : app.handleRootRequest { method := "GET", url := some "/user/profile" } =
        match app.controllers "/user" with
        | some c => SuppressController.handleRequest c
            { method := "GET", url := some "/user/profile" } "/user"
        | none => SuppressController.handleRequest app.routes
            { method := "GET", url := some "/user/profile" } "/" := rfl
    rw [hstep, hc]
    have hstep2 : SuppressController.handleRequest ctrl
        { method := "GET", url := some "/user/profile" } "/user" =
        match routesLookup ctrl "GET" "/profile" with
        | some x => Outcome.invoked x
        | none => Outcome.response 404 routeNotFoundBody := rfl
    show SuppressController.handleRequest ctrl
      { method := "GET", url := some "/user/profile" } "/user" = Outcome.invoked h
    rw [hstep2, hl]
  · intro app hc hl
    have hstep : app.handleRootRequest { method := "GET", url := some "/profile" } =
        match app.controllers "/profile" with
        | some c => SuppressController.handleRequest c
            { method := "GET", url := some "/profile" } "/profile"
        | none => SuppressController.handleRequest app.routes
            { method := "GET", url := some "/profile" } "/" := rfl
    rw [hstep, hc]
    have hstep2 : SuppressController.handleRequest app.routes
        { method := "GET", url := some "/profile" } "/" =
        match routesLookup app.routes "GET" "/profile" with
        | some x => Outcome.invoked x
        | none => Outcome.response 404 routeNotFoundBody := rfl
    show SuppressController.handleRequest app.routes
      { method := "GET", url := some "/profile" } "/" = Outcome.response 404 routeNotFoundBody
    rw [hstep2, hl]

theorem C4_witness :
    jsReplaceFirst "/abc" "/x" = "/abc" ∧
    (Suppress.addController (emptySuppress Nat) "/user"
        (SuppressController.get (emptyRoutes Nat) "/profile" 5)).handleRootRequest
      { method := "GET", url := some "/user/profile" } = Outcome.invoked 5 ∧
    (emptySuppress Nat).handleRootRequest { method := "GET", url := some "/profile" } =
      Outcome.response 404 routeNotFoundBody :=
  ⟨(@C4_first_occurrence_strip Nat).1 "/abc" "/x" (by decide),
   (@C4_first_occurrence_strip Nat).2.2.1
     (Suppress.addController (emptySuppress Nat) "/user"
        (SuppressController.get (emptyRoutes Nat) "/profile" 5))
     (SuppressController.get (emptyRoutes Nat) "/profile" 5) 5 rfl rfl,
   (@C4_first_occurrence_strip Nat).2.2.2 (emptySuppress Nat) rfl rfl⟩

/-- C5: for a recognized method the Dispatcher computes the base path as `/`
plus the first non-empty `/`-delimited path segment (or `/` with no
segments), forwards to the sub-table registered for exactly that base path
with `basePathToStrip` equal to it, and otherwise forwards to its own
embedded root Route Table with `basePathToStrip` equal to `/`. -/
theorem C5_base_path_forwarding {H : Type} (app : Suppress H) (req : Request)
    (hm : recognizedMethod req.method = true) :
    (∀ ctrl : RoutesMap H,
        app.controllers (basePathOf (urlOrSlash req.url)) = some ctrl →
        app.handleRootRequest req =
          SuppressController.handleRequest ctrl req (basePathOf (urlOrSlash req.url))) ∧
    (app.controllers (basePathOf (urlOrSlash req.url)) = none →
        app.handleRootRequest req = SuppressController.handleRequest app.routes req "/") := by
  constructor
  · intro ctrl hc
    simp [Suppress.handleRootRequest, hm, hc]
  · intro hc
    simp [Suppress.handleRootRequest, hm, hc]

theorem C5_witness :
    (Suppress.addController (emptySuppress Nat) "/u"
        (SuppressController.get (emptyRoutes Nat) "/p" 3)).handleRootRequest
      { method := "GET", url := some "/u/p" } =
      SuppressController.handleRequest (SuppressController.get (emptyRoutes Nat) "/p" 3)
        { method := "GET", url := some "/u/p" }
        (basePathOf (urlOrSlash (some "/u/p"))) ∧
    (emptySuppress Nat).handleRootRequest { method := "GET", url := some "/q" } =
      SuppressController.handleRequest (emptyRoutes Nat)
        { method := "GET", url := some "/q" } "/" :=
  ⟨(C5_base_path_forwarding (Suppress.addController (emptySuppress Nat) "/u"
        (SuppressController.get (emptyRoutes Nat) "/p" 3))
      { method := "GET", url := some "/u/p" } (by decide)).1
     (SuppressController.get (emptyRoutes Nat) "/p" 3) rfl,
   (C5_base_path_forwarding (emptySuppress Nat)
      { method := "GET", url := some "/q" } (by decide)).2 rfl⟩

/-- C6: re-registering a handler for a (method, path) pair that already has
one replaces the prior handler, for each of the four registration methods;
a subsequent matching dispatch invokes only the new handler, never the old
one; and re-registering a sub-table for a base path overwrites the previous
association. -/
theorem C6_reregistration_replaces {H : Type} (r : RoutesMap H) (p : String) (h1 h2 : H)
    (req : Request) (bp : String) (hp : effectivePath req.url bp = p) :
    (req.method = "GET" →
      SuppressController.handleRequest
        (SuppressController.get (SuppressController.get r p h1) p h2) req bp =
        Outcome.invoked h2) ∧
    (req.method = "POST" →
      SuppressController.handleRequest
        (SuppressController.post (SuppressController.post r p h1) p h2) req bp =
        Outcome.invoked h2) ∧
    (req.method = "PUT" →
      SuppressController.handleRequest
        (SuppressController.put (SuppressController.put r p h1) p h2) req bp =
        Outcome.invoked h2) ∧
    (req.method = "DELETE" →
      SuppressController.handleRequest
        (SuppressController.delete (SuppressController.delete r p h1) p h2) req bp =
        Outcome.invoked h2) ∧
    (req.method = "GET" → h1 ≠ h2 →
      SuppressController.handleRequest
        (SuppressController.get (SuppressController.get r p h1) p h2) req bp ≠
        Outcome.invoked h1) ∧
    (∀ (app : Suppress H) (base : String) (c1 c2 : RoutesMap H),
      (Suppress.addController (Suppress.addController app base c1) base c2).controllers base =
        some c2) := by
  refine ⟨?_, ?_, ?_, ?_, ?_, ?_⟩
  · intro hm
    simp [SuppressController.handleRequest, routesLookup, SuppressController.get, hm, hp]
  · intro hm
    simp [SuppressController.handleRequest, routesLookup, SuppressController.post, hm, hp]
  · intro hm
    simp [SuppressController.handleRequest, routesLookup, SuppressController.put, hm, hp]
  · intro hm
    simp [SuppressController.handleRequest, routesLookup, SuppressController.delete, hm, hp]
  · intro hm hne
    have heq : SuppressController.handleRequest
        (SuppressController.get (SuppressController.get r p h1) p h2) req bp =
        Outcome.invoked h2 := by
      simp [SuppressController.handleRequest, routesLookup, SuppressController.get, hm, hp]
    rw [heq]
    intro hcontra
    exact hne (Outcome.invoked.inj hcontra).symm
  · intro app base c1 c2
    simp [Suppress.addController]

theorem C6_witness :
    SuppressController.handleRequest
      (SuppressController.get (SuppressController.get (emptyRoutes Nat) "/a" 1) "/a" 2)
      { method := "GET", url := some "/a" } "/" = Outcome.invoked 2 ∧
    SuppressController.handleRequest
      (SuppressController.get (SuppressController.get (emptyRoutes Nat) "/a" 1) "/a" 2)
      { method := "GET", url := some "/a" } "/" ≠ Outcome.invoked 1 ∧
    (Suppress.addController (Suppress.addController (emptySuppress Nat) "/b"
        (SuppressController.get (emptyRoutes Nat) "/a" 1)) "/b"
        (emptyRoutes Nat)).controllers "/b" = some (emptyRoutes Nat) :=
  ⟨(C6_reregistration_replaces (emptyRoutes Nat) "/a" 1 2
      { method := "GET", url := some "/a" } "/" rfl).1 rfl,
   (C6_reregistration_replaces (emptyRoutes Nat) "/a" 1 2
      { method := "GET", url := some "/a" } "/" rfl).2.2.2.2.1 rfl (by decide),
   (C6_reregistration_replaces (emptyRoutes Nat) "/a" 1 2
      { method := "GET", url := some "/a" } "/" rfl).2.2.2.2.2
     (emptySuppress Nat) "/b" (SuppressController.get (emptyRoutes Nat) "/a" 1)
     (emptyRoutes Nat)⟩

/-- C7: a handler that raises synchronously during dispatch is not caught by
the Route Table nor by the Dispatcher: executing the dispatch result
propagates the same error out of `handleRequest` (and out of
`handleRootRequest`) to the caller; the router never converts the failure
into a response. -/
theorem C7_handler_error_propagates {E : Type} (r : RoutesMap (Request → Except E Unit))
    (req : Request) (bp : String) (h : Request → Except E Unit) (e : E)
    (hl : SuppressController.handleRequest r req bp = Outcome.invoked h)
    (he : h req = Except.error e) :
    runHandleRequest r req bp = Except.error e ∧
    ∀ app : Suppress (Request → Except E Unit),
      Suppress.handleRootRequest app req = Outcome.invoked h →
      runRootRequest app req = Except.error e := by
  constructor
  · unfold runHandleRequest
    rw [hl]
    exact he
  · intro app ha
    unfold runRootRequest
    rw [ha]
    exact he

theorem C7_witness :
    runHandleRequest
      (SuppressController.get (emptyRoutes (Request → Except Nat Unit)) "/e"
        (fun _ => Except.error 7))
      { method := "GET", url := some "/e" } "/" = Except.error 7 ∧
    runRootRequest
      { routes := SuppressController.get (emptyRoutes (Request → Except Nat Unit)) "/e"
          (fun _ => Except.error 7),
        controllers := fun _ => none }
      { method := "GET", url := some "/e" } = Except.error 7 :=
  ⟨(C7_handler_error_propagates
      (SuppressController.get (emptyRoutes (Request → Except Nat Unit)) "/e"
        (fun _ => Except.error 7))
      { method := "GET", url := some "/e" } "/" (fun _ => Except.error 7) 7 rfl rfl).1,
   (C7_handler_error_propagates
      (SuppressController.get (emptyRoutes (Request → Except Nat Unit)) "/e"
        (fun _ => Except.error 7))
      { method := "GET", url := some "/e" } "/" (fun _ => Except.error 7) 7 rfl rfl).2
     { routes := SuppressController.get (emptyRoutes (Request → Except Nat Unit)) "/e"
         (fun _ => Except.error 7),
       controllers := fun _ => none } rfl⟩

/-- C8: with a recognized method, no handler registered for `/` under that
method in the root table, and no sub-table registered for base path `/`, a
request to `/` yields the 404 `Route not found` response (and hence not
405). -/
theorem C8_root_request_404 {H : Type} (app : Suppress H) (m : String)
    (hm : recognizedMethod m = true)
    (hroot : routesLookup app.routes m "/" = none)
    (hctrl : app.controllers "/" = none) :
    app.handleRootRequest { method := m, url := some "/" } =
      Outcome.response 404 routeNotFoundBody := by
  have hb : basePathOf (urlOrSlash (some "/")) = "/" := by decide
  have hep : effectivePath (some "/") "/" = "/" := by decide
  simp [Suppress.handleRootRequest, SuppressController.handleRequest, hm, hb, hctrl,
    hep, hroot]

theorem C8_witness :
    (emptySuppress Nat).handleRootRequest { method := "GET", url := some "/" } =
      Outcome.response 404 routeNotFoundBody :=
  C8_root_request_404 (emptySuppress Nat) "GET" (by decide) rfl rfl

/-- C9: for a non-empty `basePathToStrip`, a url exactly equal to it (or an
absent or empty url) makes the Route Table's dispatch use `/` as the
effective lookup path; consequently a handler registered at `/` inside a
sub-table registered at base `/x` is invoked for a request to exactly
`/x`. -/
theorem C9_exact_base_url_maps_to_root {H : Type} (bp : String) (_hbp : bp ≠ "")
    (u : Option String) (hu : u = some bp ∨ u = none ∨ u = some "") :
    effectivePath u bp = "/" ∧
    ∀ (app : Suppress H) (ctrl : RoutesMap H) (h : H),
      app.controllers "/x" = some ctrl →
      routesLookup ctrl "GET" "/" = some h →
      app.handleRootRequest { method := "GET", url := some "/x" } = Outcome.invoked h := by
  constructor
  · rcases hu with hu | hu | hu <;> subst hu
    · have h1 : effectivePathChars (some bp.data) bp.data = ['/'] := by
        unfold effectivePathChars
        simp [removeFirstSub_self, chPre]
      show String.mk (effectivePathChars (some bp.data) bp.data) = "/"
      rw [h1]
    · rfl
    · have h1 : effectivePathChars (some ([] : List Char)) bp.data = ['/'] := by
        unfold effectivePathChars
        simp [removeFirstSub, chPre]
      show String.mk (effectivePathChars (some ([] : List Char)) bp.data) = "/"
      rw [h1]
  · intro app ctrl h hc hl
    have hstep : app.handleRootRequest { method := "GET", url := some "/x" } =
        match app.controllers "/x" with
        | some c => SuppressController.handleRequest c
            { method := "GET", url := some "/x" } "/x"
        | none => SuppressController.handleRequest app.routes
            { method := "GET", url := some "/x" } "/" := rfl
    rw [hstep, hc]
    have hstep2 : SuppressController.handleRequest ctrl
        { method := "GET", url := some "/x" } "/x" =
        match routesLookup ctrl "GET" "/" with
        | some y => Outcome.invoked y
        | none => Outcome.response 404 routeNotFoundBody := rfl
    show SuppressController.handleRequest ctrl
      { method := "GET", url := some "/x" } "/x" = Outcome.invoked h
    rw [hstep2, hl]

theorem C9_witness :
    effectivePath (some "/x") "/x" = "/" ∧
    (Suppress.addController (emptySuppress Nat) "/x"
        (SuppressController.get (emptyRoutes Nat) "/" 9)).handleRootRequest
      { method := "GET", url := some "/x" } = Outcome.invoked 9 :=
  ⟨(@C9_exact_base_url_maps_to_root Nat "/x" (by decide) (some "/x") (Or.inl rfl)).1,
   (@C9_exact_base_url_maps_to_root Nat "/x" (by decide) (some "/x") (Or.inl rfl)).2
     (Suppress.addController (emptySuppress Nat) "/x"
        (SuppressController.get (emptyRoutes Nat) "/" 9))
     (SuppressController.get (emptyRoutes Nat) "/" 9) 9 rfl rfl⟩

/-- C10: for any method string outside GET/POST/PUT/DELETE the Route Table's
lookup finds nothing — the optional chaining makes `handleRequest` total
rather than failing — and the 404 branch is taken, whatever the table state
and path. -/
theorem C10_unrecognized_method_lookup_404 {H : Type} (r : RoutesMap H) (req : Request)
    (bp : String) (hm : recognizedMethod req.method = false) :
    routesLookup r req.method (effectivePath req.url bp) = none ∧
    SuppressController.handleRequest r req bp = Outcome.response 404 routeNotFoundBody := by
  have hm4 : ((¬ req.method = "GET" ∧ ¬ req.method = "POST") ∧ ¬ req.method = "PUT") ∧
      ¬ req.method = "DELETE" := by
    simpa [recognizedMethod] using hm
  obtain ⟨⟨⟨hG, hP⟩, hU⟩, hD⟩ := hm4
  have hl : routesLookup r req.method (effectivePath req.url bp) = none := by
    simp [routesLookup, hG, hP, hU, hD]
  refine ⟨hl, ?_⟩
  unfold SuppressController.handleRequest
  rw [hl]

theorem C10_witness :
    routesLookup (SuppressController.get (emptyRoutes Nat) "/a" 1) "PATCH"
      (effectivePath (some "/a") "/") = none ∧
    SuppressController.handleRequest (SuppressController.get (emptyRoutes Nat) "/a" 1)
      { method := "PATCH", url := some "/a" } "/" =
      Outcome.response 404 routeNotFoundBody :=
  C10_unrecognized_method_lookup_404 (SuppressController.get (emptyRoutes Nat) "/a" 1)
    { method := "PATCH", url := some "/a" } "/" (by decide)
